import Mathlib

/-!
Verification of the diesel-logger connection wrapper.

Shallow embedding of src/lib.rs: the `LoggingConnection` decorator, its
timing/logging policy (`log_query`, `duration_to_secs`, `duration_to_ms`)
and the delegating `LoggingTransactionManager`.

Modelling conventions:
* Rust `std::time::Duration` is a pair of a `u64` whole-second count and a
  sub-second nanosecond count that the standard library keeps below `10^9`;
  we embed it as two `Nat` fields with that invariant carried as a proof field.
* Machine-integer truncation is explicit: the `as u32` cast and the `u32`
  multiplication in `duration_to_ms` are embedded as `% 2^32`.
* `f32` arithmetic is embedded as exact rational arithmetic over `ℚ`; at every
  value these theorems evaluate, the `f32` computation of the source is exact
  (all intermediates are representable), and the `{:.1}` / `{:.2}` fixed
  format specifiers are embedded as exact decimal rendering of the rational.
* Effects: log emission is made explicit by returning a `List LogRecord`
  alongside the result of each operation; asynchronous operations are split
  into their synchronous phase (what runs before the future is returned to
  the caller) and a completion phase (what runs when the future is driven to
  completion), each with its own emitted-log list.
* The inner connection, its error types, its rendered query text and its
  transaction manager are external collaborators; they appear as type
  parameters and function-valued parameters.
-/

namespace DieselLogger

/-- Embedding of `std::time::Duration`: whole seconds plus sub-second
nanoseconds, with the standard-library invariant that `nanos` stays below
`10^9`. -/
structure Duration where
  secs : Nat
  nanos : Nat
  nanos_lt : nanos < 1000000000

/-- Embeds `Duration::as_secs`: the whole-second count. -/
def Duration.as_secs (d : Duration) : Nat := d.secs

/-- Embeds `Duration::subsec_nanos`: the sub-second nanosecond count. -/
def Duration.subsec_nanos (d : Duration) : Nat := d.nanos

/-- The mathematically exact length of a duration, in seconds (a rational).
This is the spec-side meaning of the phrase "the elapsed duration d". -/
def exact_secs (d : Duration) : ℚ :=
  (d.secs : ℚ) + (d.nanos : ℚ) / 1000000000

/-- The mathematically exact length of a duration, in milliseconds. Used as
the reference value against which the source `duration_to_ms` (with its
`u32` cast and multiplication) is compared. -/
def exact_ms (d : Duration) : ℚ :=
  (d.secs : ℚ) * 1000 + (d.nanos : ℚ) / 1000000

/-- Embeds `const NANOS_PER_MILLI: u32 = 1_000_000;`. -/
def NANOS_PER_MILLI : Nat := 1000000

/-- Embeds `const MILLIS_PER_SEC: u32 = 1_000;`. -/
def MILLIS_PER_SEC : Nat := 1000

/-- Embeds `fn duration_to_ms(duration: Duration) -> f32`, whose body is
`(duration.as_secs() as u32 * 1000) as f32 + (duration.subsec_nanos() as f32 / NANOS_PER_MILLI as f32)`.
The `as u32` cast truncates the `u64` second count modulo `2^32` and the
`u32` multiplication by 1000 wraps modulo `2^32`; both are embedded
explicitly. The `f32` addition and division are embedded as exact rational
arithmetic. -/
def duration_to_ms (duration : Duration) : ℚ :=
  (((duration.as_secs % 2 ^ 32) * 1000 % 2 ^ 32 : Nat) : ℚ)
    + (duration.subsec_nanos : ℚ) / (NANOS_PER_MILLI : ℚ)

/-- Embeds `fn duration_to_secs(duration: Duration) -> f32`, whose body is
`duration_to_ms(duration) / MILLIS_PER_SEC as f32`. -/
def duration_to_secs (duration : Duration) : ℚ :=
  duration_to_ms duration / (MILLIS_PER_SEC : ℚ)

/-- The three log levels the wrapper emits (the `warn!`, `info!` and
`debug!` macros). -/
inductive LogLevel where
  | debug : LogLevel
  | info : LogLevel
  | warn : LogLevel
deriving DecidableEq, Repr

/-- One record handed to the logging sink: a level and a formatted message. -/
structure LogRecord where
  level : LogLevel
  message : String
deriving DecidableEq, Repr

/-- Renders a nonnegative rational with a fixed number of decimal digits,
embedding the Rust `{:.1}` / `{:.2}` float format specifiers. Rounding is
to the nearest representable decimal (ties away from zero); every value
these theorems evaluate is an exact decimal, so no tie is ever hit. -/
def renderFixed (q : ℚ) (decimals : Nat) : String :=
  let scaled : Nat := (⌊q * (10 : ℚ) ^ decimals + 1 / 2⌋).toNat
  let ipart : Nat := scaled / 10 ^ decimals
  let fpart : Nat := scaled % 10 ^ decimals
  let fstr : String := toString fpart
  let fpad : String := String.mk (List.replicate (decimals - fstr.length) '0') ++ fstr
  toString ipart ++ "." ++ fpad

/-- Embeds `fn log_query(query: &dyn Display, duration: Duration)`: it
classifies the elapsed duration by its whole-second count and emits one
leveled record: `warn!("SLOW QUERY [{:.2} s]: {}", ...)` when
`duration.as_secs() >= 5`, `info!` with the same template when
`duration.as_secs() >= 1`, and `debug!("QUERY: [{:.1}ms]: {}", ...)`
otherwise. The returned record is the single record the call hands to the
logging sink. -/
def log_query (query : String) (duration : Duration) : LogRecord :=
  if 5 ≤ duration.as_secs then
    ⟨LogLevel.warn, "SLOW QUERY [" ++ renderFixed (duration_to_secs duration) 2 ++ " s]: " ++ query⟩
  else if 1 ≤ duration.as_secs then
    ⟨LogLevel.info, "SLOW QUERY [" ++ renderFixed (duration_to_secs duration) 2 ++ " s]: " ++ query⟩
  else
    ⟨LogLevel.debug, "QUERY: [" ++ renderFixed (duration_to_ms duration) 1 ++ "ms]: " ++ query⟩

/-- Embeds `pub struct LoggingTransactionManager<C> { phantom: PhantomData<C> }`:
a marker type tied to the inner connection type `σ`. It has no runtime
fields, exactly as `PhantomData` has none. -/
structure LoggingTransactionManager (σ : Type)

/-- Embeds `pub struct LoggingConnection<C>`: owns the inner connection and
the (stateless) transaction-manager marker. -/
structure LoggingConnection (σ : Type) where
  connection : σ
  transaction_manager : LoggingTransactionManager σ

/-- Embeds `LoggingConnection::new(connection)`: wraps an inner connection,
creating the phantom transaction-manager marker. -/
def LoggingConnection.new {σ : Type} (connection : σ) : LoggingConnection σ :=
  ⟨connection, ⟨⟩⟩

/-- Embeds `async fn establish(database_url: &str)`: it delegates to the
establishment routine of the inner connection type (embedded as the
function `inner_establish`, its awaited result an `Except`), wraps a
successful result with `LoggingConnection::new`, and lets the `?` operator
propagate a failure unchanged. The second component is the list of log
records the call emits (none). -/
def establish {σ ε : Type} (inner_establish : String → Except ε σ)
    (database_url : String) : Except ε (LoggingConnection σ) × List LogRecord :=
  match inner_establish database_url with
  | Except.ok c => (Except.ok (LoggingConnection.new c), [])
  | Except.error e => (Except.error e, [])

/-- Embeds `async fn batch_execute(&mut self, query: &str)`: it forwards
the statement text to the inner connection (embedded as
`inner_batch_execute`) and returns its result; the second component is the
list of log records the call emits (none). -/
def batch_execute {ε : Type} (inner_batch_execute : String → Except ε Unit)
    (query : String) : Except ε Unit × List LogRecord :=
  (inner_batch_execute query, [])

/-- Embeds `fn load(&mut self, source)`, whose whole body is synchronous.
It renders the query (`debug_string`, a parameter here since rendering is
an external facility), captures `bench_query_begin`, calls `load` on the
inner connection (the returned future/stream is the parameter
`inner_load_future` of arbitrary type `α`), then `bench_query_end` computes
the elapsed time of that synchronous call only (the parameter
`elapsed_sync`) and calls `log_query`. The inner future is returned
untouched; the log record list is what this synchronous call emits before
returning. -/
def load {α : Type} (debug_string : String) (inner_load_future : α)
    (elapsed_sync : Duration) : α × List LogRecord :=
  (inner_load_future, [log_query debug_string elapsed_sync])

/-- The boxed future returned by `execute_returning_count`: the
`async move` block captures the rendered SQL. -/
structure ExecuteFuture where
  query_sql : String

/-- Embeds the synchronous phase of
`fn execute_returning_count(&mut self, source)`: it renders the query to
`query_sql` and returns the boxed `async move` future. No log record is
emitted in this phase (second component `[]`). -/
def execute_returning_count (query_sql : String) : ExecuteFuture × List LogRecord :=
  (⟨query_sql⟩, [])

/-- Embeds driving the boxed future of `execute_returning_count` to
completion: `Instant::now()`, await the inner execution (its result is the
parameter `inner_result`, the measured wall time the parameter `elapsed`),
then `log_query(&query_sql, duration)` and yield `result`. The first
component is the value the future resolves to, the second the log records
this completion phase emits. -/
def ExecuteFuture.complete {ε : Type} (f : ExecuteFuture)
    (inner_result : Except ε Nat) (elapsed : Duration) :
    Except ε Nat × List LogRecord :=
  (inner_result, [log_query f.query_sql elapsed])

/-- Log records emitted by an `execute_returning_count` call whose returned
future is dropped before completion: only the synchronous phase ever ran. -/
def execute_logs_when_future_dropped (query_sql : String) : List LogRecord :=
  (execute_returning_count query_sql).2

/-- Log records emitted by a `load` call whose returned future/stream is
dropped before completion: everything `load` itself does is synchronous and
has already run by the time the caller holds the future. -/
def load_logs_when_future_dropped (debug_string : String)
    (elapsed_sync : Duration) : List LogRecord :=
  (load debug_string () elapsed_sync).2

/-- The own transaction manager of the inner connection
(`C::TransactionManager`), an external collaborator: each lifecycle call
mutates the inner connection state `σ` and may report an error `ε`
(`QueryResult<()>` embedded as `Option ε` alongside the updated state), and
`transaction_manager_status_mut` is embedded as a getter/setter pair for
the live `TransactionManagerStatus` value (of abstract type `τ`) inside
`σ`. -/
structure InnerTransactionManager (σ τ ε : Type) where
  begin_transaction : σ → σ × Option ε
  commit_transaction : σ → σ × Option ε
  rollback_transaction : σ → σ × Option ε
  status_get : σ → τ
  status_set : σ → τ → σ

/-- A mutable reference to a `τ` reachable through a `γ`, embedded as a
getter/setter pair: reading through the reference, and writing through the
reference (the write updates the underlying `γ` in place). -/
structure StatusRef (γ τ : Type) where
  get : γ → τ
  set : γ → τ → γ

/-- Embeds `LoggingTransactionManager::begin_transaction(conn)`: it invokes
`C::TransactionManager::begin_transaction(&mut conn.connection)` and
returns its result; only the inner connection is mutated. -/
def LoggingTransactionManager.begin_transaction {σ τ ε : Type}
    (tm : InnerTransactionManager σ τ ε) (conn : LoggingConnection σ) :
    LoggingConnection σ × Option ε :=
  let r := tm.begin_transaction conn.connection
  (⟨r.1, conn.transaction_manager⟩, r.2)

/-- Embeds `LoggingTransactionManager::commit_transaction(conn)`: the same
delegation pattern for commit. -/
def LoggingTransactionManager.commit_transaction {σ τ ε : Type}
    (tm : InnerTransactionManager σ τ ε) (conn : LoggingConnection σ) :
    LoggingConnection σ × Option ε :=
  let r := tm.commit_transaction conn.connection
  (⟨r.1, conn.transaction_manager⟩, r.2)

/-- Embeds `LoggingTransactionManager::rollback_transaction(conn)`: the
same delegation pattern for rollback. -/
def LoggingTransactionManager.rollback_transaction {σ τ ε : Type}
    (tm : InnerTransactionManager σ τ ε) (conn : LoggingConnection σ) :
    LoggingConnection σ × Option ε :=
  let r := tm.rollback_transaction conn.connection
  (⟨r.1, conn.transaction_manager⟩, r.2)

/-- Embeds `LoggingTransactionManager::transaction_manager_status_mut(conn)`:
it returns `C::TransactionManager::transaction_manager_status_mut(&mut conn.connection)`,
that is, the live status reference of the inner manager routed through the
`connection` field of the wrapper. -/
def LoggingTransactionManager.transaction_manager_status_mut {σ τ ε : Type}
    (tm : InnerTransactionManager σ τ ε) : StatusRef (LoggingConnection σ) τ where
  get := fun conn => tm.status_get conn.connection
  set := fun conn st => ⟨tm.status_set conn.connection st, conn.transaction_manager⟩

/-- A transaction lifecycle call, for stating sequences of
begin/commit/rollback. -/
inductive TxOp where
  | beginOp : TxOp
  | commitOp : TxOp
  | rollbackOp : TxOp
deriving DecidableEq, Repr

/-- Runs one lifecycle call directly against the own transaction manager of
the inner connection. -/
def TxOp.runInner {σ τ ε : Type} (tm : InnerTransactionManager σ τ ε) :
    TxOp → σ → σ × Option ε
  | TxOp.beginOp => tm.begin_transaction
  | TxOp.commitOp => tm.commit_transaction
  | TxOp.rollbackOp => tm.rollback_transaction

/-- Runs one lifecycle call through the transaction manager of the
wrapper. -/
def TxOp.runWrapper {σ τ ε : Type} (tm : InnerTransactionManager σ τ ε) :
    TxOp → LoggingConnection σ → LoggingConnection σ × Option ε
  | TxOp.beginOp => LoggingTransactionManager.begin_transaction tm
  | TxOp.commitOp => LoggingTransactionManager.commit_transaction tm
  | TxOp.rollbackOp => LoggingTransactionManager.rollback_transaction tm

/-- Runs a sequence of lifecycle calls directly against the inner manager,
collecting the reported outcome of each call. -/
def runSeqInner {σ τ ε : Type} (tm : InnerTransactionManager σ τ ε) :
    List TxOp → σ → σ × List (Option ε)
  | [], s => (s, [])
  | op :: ops, s =>
    let r := op.runInner tm s
    let rest := runSeqInner tm ops r.1
    (rest.1, r.2 :: rest.2)

/-- Runs a sequence of lifecycle calls through the wrapper, collecting the
reported outcome of each call. -/
def runSeqWrapper {σ τ ε : Type} (tm : InnerTransactionManager σ τ ε) :
    List TxOp → LoggingConnection σ → LoggingConnection σ × List (Option ε)
  | [], c => (c, [])
  | op :: ops, c =>
    let r := op.runWrapper tm c
    let rest := runSeqWrapper tm ops r.1
    (rest.1, r.2 :: rest.2)

/-- Durations used by the rendering theorem: exactly 250 milliseconds. -/
def d250ms : Duration := ⟨0, 250000000, by norm_num⟩

/-- Durations used by the rendering theorem: exactly 1500 milliseconds. -/
def d1500ms : Duration := ⟨1, 500000000, by norm_num⟩

/-- Bridge between the exact duration in seconds and the integer
whole-second count the code branches on: for a natural threshold `k`,
`k ≤ exact_secs d` exactly when `k ≤ d.secs`, because the sub-second part
is in `[0, 1)`. -/
lemma le_exact_secs_iff (k : Nat) (d : Duration) :
    (k : ℚ) ≤ exact_secs d ↔ k ≤ d.secs := by
  unfold exact_secs
  constructor
  · intro hk
    have hfrac : (d.nanos : ℚ) / 1000000000 < 1 := by
      rw [div_lt_one (by norm_num)]
      exact_mod_cast d.nanos_lt
    have hlt : (k : ℚ) < (d.secs : ℚ) + 1 := by linarith
    have hn : k < d.secs + 1 := by exact_mod_cast hlt
    omega
  · intro hk
    have h0 : (0 : ℚ) ≤ (d.nanos : ℚ) / 1000000000 := by positivity
    have hq : (k : ℚ) ≤ (d.secs : ℚ) := by exact_mod_cast hk
    linarith

/-- C1: for every elapsed duration `d`, the emitted level is warn when
`d ≥ 5s`, info when `1s ≤ d < 5s`, debug when `d < 1s`; and the boundary
values of exactly 1.000s and 5.000s classify as info and warn respectively,
never the lower tier. -/
theorem log_level_matches_thresholds (q : String) (d : Duration) :
    ((5 : ℚ) ≤ exact_secs d → (log_query q d).level = LogLevel.warn) ∧
    ((1 : ℚ) ≤ exact_secs d ∧ exact_secs d < 5 → (log_query q d).level = LogLevel.info) ∧
    (exact_secs d < 1 → (log_query q d).level = LogLevel.debug) ∧
    (log_query q ⟨1, 0, by norm_num⟩).level = LogLevel.info ∧
    (log_query q ⟨5, 0, by norm_num⟩).level = LogLevel.warn := by
  refine ⟨?_, ?_, ?_, ?_, ?_⟩
  · intro h
    have h5 : 5 ≤ d.secs := (le_exact_secs_iff 5 d).mp (by exact_mod_cast h)
    simp [log_query, Duration.as_secs, h5]
  · rintro ⟨ha, hb⟩
    have h1 : 1 ≤ d.secs := (le_exact_secs_iff 1 d).mp (by exact_mod_cast ha)
    have h5 : ¬ 5 ≤ d.secs := by
      intro hc
      have := (le_exact_secs_iff 5 d).mpr hc
      push_cast at this
      linarith
    simp [log_query, Duration.as_secs, h1, h5]
  · intro h
    have h1 : ¬ 1 ≤ d.secs := by
      intro hc
      have := (le_exact_secs_iff 1 d).mpr hc
      push_cast at this
      linarith
    have h5 : ¬ 5 ≤ d.secs := by omega
    simp [log_query, Duration.as_secs, h1, h5]
  · simp [log_query, Duration.as_secs]
  · simp [log_query, Duration.as_secs]

/-- Witness for C1: concrete durations of 6s, 2.5s and 0.25s classify as
warn, info and debug. -/
theorem log_level_matches_thresholds_witness :
    (log_query "SELECT 1" ⟨6, 0, by norm_num⟩).level = LogLevel.warn ∧
    (log_query "SELECT 1" ⟨2, 500000000, by norm_num⟩).level = LogLevel.info ∧
    (log_query "SELECT 1" ⟨0, 250000000, by norm_num⟩).level = LogLevel.debug :=
  ⟨(log_level_matches_thresholds "SELECT 1" ⟨6, 0, by norm_num⟩).1
      (by norm_num [exact_secs]),
   (log_level_matches_thresholds "SELECT 1" ⟨2, 500000000, by norm_num⟩).2.1
      (by norm_num [exact_secs]),
   (log_level_matches_thresholds "SELECT 1" ⟨0, 250000000, by norm_num⟩).2.2.1
      (by norm_num [exact_secs])⟩

/-- C2: for every call to `execute_returning_count` whose future is driven
to completion, exactly one log record is emitted over both phases (none
synchronously, one on completion), regardless of whether the inner
execution succeeded or failed, and the inner result is returned to the
caller unmodified. -/
theorem execute_returning_count_logs_once {ε : Type} (query_sql : String)
    (inner_result : Except ε Nat) (elapsed : Duration) :
    ((execute_returning_count query_sql).1.complete inner_result elapsed).1
      = inner_result ∧
    ((execute_returning_count query_sql).2
      ++ ((execute_returning_count query_sql).1.complete inner_result elapsed).2).length
      = 1 :=
  ⟨rfl, rfl⟩

/-- C3: every `load` call emits exactly one classified log record, that
record is computed by `log_query` from the rendered query text and the
elapsed time of the synchronous initiating call only, and the inner
future/stream is returned to the caller untouched. -/
theorem load_logs_once_returns_untouched {α : Type} (debug_string : String)
    (inner_load_future : α) (elapsed_sync : Duration) :
    (load debug_string inner_load_future elapsed_sync).1 = inner_load_future ∧
    (load debug_string inner_load_future elapsed_sync).2
      = [log_query debug_string elapsed_sync] :=
  ⟨rfl, rfl⟩

/-- Counterexample to C4: a `load` call whose returned future is dropped
before completion has nevertheless already emitted a log record, because
`load` logs synchronously before handing the future to the caller. -/
theorem cancelled_load_still_logs :
    ¬ load_logs_when_future_dropped "SELECT 1" ⟨0, 0, by norm_num⟩ = [] := by
  simp [load_logs_when_future_dropped, load]

/-- C4 as amended: for `execute_returning_count`, whose logging is deferred
inside the returned future, dropping the future before completion means no
log record is ever emitted; for `load`, however, the single log record is
emitted synchronously during the call itself, before the inner
future/stream is returned, so it is emitted even when that future is never
driven. -/
theorem dropped_future_logging (query_sql debug_string : String)
    (elapsed_sync : Duration) :
    execute_logs_when_future_dropped query_sql = [] ∧
    load_logs_when_future_dropped debug_string elapsed_sync
      = [log_query debug_string elapsed_sync] :=
  ⟨rfl, rfl⟩

/-- One lifecycle call through the wrapper acts on the inner connection
exactly as the same call applied directly to the inner manager, and reports
the same outcome. -/
lemma txop_wrapper_eq_inner {σ τ ε : Type} (tm : InnerTransactionManager σ τ ε)
    (op : TxOp) (conn : LoggingConnection σ) :
    (op.runWrapper tm conn).1.connection = (op.runInner tm conn.connection).1 ∧
    (op.runWrapper tm conn).2 = (op.runInner tm conn.connection).2 := by
  cases op <;> exact ⟨rfl, rfl⟩

/-- C5: for every sequence of begin/commit/rollback calls through the
transaction manager of the wrapper, the final inner-connection state equals
the state after the same sequence applied directly to the inner manager,
every per-call outcome is propagated unchanged, and in particular the final
transaction status shows no divergence. -/
theorem transaction_sequence_no_divergence {σ τ ε : Type}
    (tm : InnerTransactionManager σ τ ε) (ops : List TxOp)
    (conn : LoggingConnection σ) :
    (runSeqWrapper tm ops conn).1.connection
      = (runSeqInner tm ops conn.connection).1 ∧
    (runSeqWrapper tm ops conn).2 = (runSeqInner tm ops conn.connection).2 ∧
    tm.status_get (runSeqWrapper tm ops conn).1.connection
      = tm.status_get (runSeqInner tm ops conn.connection).1 := by
  induction ops generalizing conn with
  | nil => exact ⟨rfl, rfl, rfl⟩
  | cons op ops ih =>
    have hop := txop_wrapper_eq_inner tm op conn
    have hrest := ih ((op.runWrapper tm conn).1)
    simp only [runSeqWrapper, runSeqInner]
    refine ⟨?_, ?_, ?_⟩
    · rw [hrest.1, hop.1]
    · rw [hrest.2.1, hop.1, hop.2]
    · rw [hrest.1, hop.1]

/-- C6: the transaction manager of the wrapper carries no runtime state
(any two values of it are equal), and its status operation is the live
status of the inner manager routed through the `connection` field: reading
through it reads the inner status, and writing through it writes the inner
status inside the wrapped connection, touching nothing else. -/
theorem status_mut_is_inner_live_status {σ τ ε : Type}
    (tm : InnerTransactionManager σ τ ε) (conn : LoggingConnection σ) (st : τ)
    (ma mb : LoggingTransactionManager σ) :
    ma = mb ∧
    (LoggingTransactionManager.transaction_manager_status_mut tm).get conn
      = tm.status_get conn.connection ∧
    ((LoggingTransactionManager.transaction_manager_status_mut tm).set conn st).connection
      = tm.status_set conn.connection st := by
  refine ⟨?_, rfl, rfl⟩
  cases ma
  cases mb
  rfl

/-- C7: `batch_execute` is a raw passthrough (the inner result on the
forwarded statement text, returned unchanged) and emits no log record; and
`establish` emits no log record either, for any input. -/
theorem batch_execute_establish_no_logs {σ ε εc : Type}
    (inner_batch_execute : String → Except ε Unit)
    (inner_establish : String → Except εc σ) (query database_url : String) :
    (batch_execute inner_batch_execute query).1 = inner_batch_execute query ∧
    (batch_execute inner_batch_execute query).2 = [] ∧
    (establish inner_establish database_url).2 = [] := by
  refine ⟨rfl, rfl, ?_⟩
  cases hx : inner_establish database_url <;> simp [establish, hx]

/-- C8: `establish` delegates to the establishment routine of the inner
connection type and is exactly its result mapped through
`LoggingConnection.new`: on success it returns the wrapper around the
established inner connection, on failure it propagates the inner error
unchanged without constructing a wrapper. -/
theorem establish_wraps_success_propagates_failure {σ ε : Type}
    (inner_establish : String → Except ε σ) (database_url : String) :
    (establish inner_establish database_url).1
      = Except.map LoggingConnection.new (inner_establish database_url) := by
  cases hx : inner_establish database_url <;> simp [establish, hx, Except.map]

/-- C9: a measured duration of exactly 250 milliseconds renders under the
debug template with millisecond value 250.0, and a measured duration of
exactly 1500 milliseconds renders under the info template with
elapsed-seconds value 1.50. -/
theorem debug_info_rendering (q : String) :
    log_query q d250ms = ⟨LogLevel.debug, "QUERY: [250.0ms]: " ++ q⟩ ∧
    log_query q d1500ms = ⟨LogLevel.info, "SLOW QUERY [1.50 s]: " ++ q⟩ := by
  have h1 : renderFixed (duration_to_ms d250ms) 1 = "250.0" := by
    have h : ⌊duration_to_ms d250ms * (10 : ℚ) ^ 1 + 1 / 2⌋ = (2500 : ℤ) := by
      norm_num [duration_to_ms, d250ms, Duration.as_secs, Duration.subsec_nanos,
        NANOS_PER_MILLI]
    simp only [renderFixed, h]
    decide
  have h2 : renderFixed (duration_to_secs d1500ms) 2 = "1.50" := by
    have h : ⌊duration_to_secs d1500ms * (10 : ℚ) ^ 2 + 1 / 2⌋ = (150 : ℤ) := by
      norm_num [duration_to_secs, duration_to_ms, d1500ms, Duration.as_secs,
        Duration.subsec_nanos, NANOS_PER_MILLI, MILLIS_PER_SEC]
    simp only [renderFixed, h]
    decide
  constructor
  · have hs : ¬ 5 ≤ Duration.as_secs d250ms := by decide
    have ht : ¬ 1 ≤ Duration.as_secs d250ms := by decide
    rw [log_query, if_neg hs, if_neg ht, h1]
    rfl
  · have hs : ¬ 5 ≤ Duration.as_secs d1500ms := by decide
    have ht : 1 ≤ Duration.as_secs d1500ms := by decide
    rw [log_query, if_neg hs, if_pos ht, h2]
    rfl

/-- C10: the millisecond conversion casts the whole-second count to `u32`
and multiplies by 1000 in `u32`; the computation agrees with the exact
millisecond value whenever the whole-second count is at most 4294967, and
for every duration with a larger whole-second count the wrapped value
strictly under-reports the true elapsed milliseconds. -/
theorem duration_to_ms_wraps_past_u32 (d : Duration) :
    (d.secs ≤ 4294967 → duration_to_ms d = exact_ms d) ∧
    (4294968 ≤ d.secs → duration_to_ms d < exact_ms d) := by
  have e32 : (2 : Nat) ^ 32 = 4294967296 := by norm_num
  constructor
  · intro h
    have h1 : d.secs % 2 ^ 32 = d.secs := Nat.mod_eq_of_lt (by omega)
    have h2 : d.secs * 1000 % 2 ^ 32 = d.secs * 1000 := Nat.mod_eq_of_lt (by omega)
    unfold duration_to_ms exact_ms Duration.as_secs Duration.subsec_nanos NANOS_PER_MILLI
    rw [h1, h2]
    push_cast
    ring
  · intro h
    have hW : (d.secs % 2 ^ 32) * 1000 % 2 ^ 32 < d.secs * 1000 := by
      have hlt : (d.secs % 2 ^ 32) * 1000 % 2 ^ 32 < 2 ^ 32 :=
        Nat.mod_lt _ (by norm_num)
      omega
    have hq : (((d.secs % 2 ^ 32) * 1000 % 2 ^ 32 : Nat) : ℚ)
        < ((d.secs * 1000 : Nat) : ℚ) := by exact_mod_cast hW
    unfold duration_to_ms exact_ms Duration.as_secs Duration.subsec_nanos NANOS_PER_MILLI
    push_cast at hq ⊢
    linarith

/-- Witness for C10: at 4294968 whole seconds the computed millisecond
value strictly under-reports the exact one, and at 4294967 whole seconds it
is still exact. -/
theorem duration_to_ms_wraps_past_u32_witness :
    duration_to_ms ⟨4294968, 0, by norm_num⟩ < exact_ms ⟨4294968, 0, by norm_num⟩ ∧
    duration_to_ms ⟨4294967, 0, by norm_num⟩ = exact_ms ⟨4294967, 0, by norm_num⟩ :=
  ⟨(duration_to_ms_wraps_past_u32 ⟨4294968, 0, by norm_num⟩).2 (by norm_num),
   (duration_to_ms_wraps_past_u32 ⟨4294967, 0, by norm_num⟩).1 (by norm_num)⟩

end DieselLogger
